import Mathlib

/-!
Shallow embedding of AvAtom/staticKS.py (classes Orbitals and Density) together
with the parts of AvAtom/config.py that staticKS.py reads.

Modelling conventions:
* numpy arrays become total functions from index tuples (ℕ, ...) to ℚ; only
  indices below the configured dimensions correspond to real array entries, so
  theorems about array contents carry in-range hypotheses where it matters.
* Python float arithmetic is modelled exactly over ℚ.
* External numerical primitives that staticKS.py calls but whose code is not
  part of this excerpt (numpy exp, math.sqrt(2)*pi**2, mathtools.fermi_dirac,
  mathtools.chem_pot, mathtools.fd_int_complete, numerov.matrix_solve) are
  passed as explicit function/constant parameters.
* Mutation of `self` and of the module-global `config.mu` becomes explicit
  state passing: each method returns the updated object (and the new mu where
  the source assigns `config.mu`).
* The source methods contain no `raise` statement on any path modelled here,
  so every operation is a total function: there is no error outcome.
-/

/-- The global parameters of config.py that staticKS.py reads: array dimensions
(spindims, lmax, nmax, ngrid), the logarithmic grid `xgrid`, per-spin electron
counts `nele`, inverse temperature `beta`, the unbound-electron treatment
string `unbound`, and the spherical cavity volume `sph_vol`. -/
structure Config where
  spindims : ℕ
  lmax : ℕ
  nmax : ℕ
  ngrid : ℕ
  xgrid : ℕ → ℚ
  nele : ℕ → ℚ
  beta : ℚ
  unbound : String
  sph_vol : ℚ

/-- The Orbitals object of staticKS.py: eigenfunctions indexed by
(spin, l, n, grid point), and eigenvalues, occupation numbers and the
boundedness mask indexed by (spin, l, n). -/
structure Orbitals where
  eigfuncs : ℕ → ℕ → ℕ → ℕ → ℚ
  eigvals : ℕ → ℕ → ℕ → ℚ
  occnums : ℕ → ℕ → ℕ → ℚ
  lbound : ℕ → ℕ → ℕ → ℚ

/-- Orbitals.__init__: every attribute starts as an all-zero array. -/
def Orbitals.init : Orbitals :=
  { eigfuncs := fun _ _ _ _ => 0
    eigvals := fun _ _ _ => 0
    occnums := fun _ _ _ => 0
    lbound := fun _ _ _ => 0 }

/-- Orbitals.make_lbound: `for l in range(lmax): lbound[:, l] =
np.where(eigvals[:, l] < 0, 2*l+1.0, 0.0)`.  Rows with l ≥ lmax are never
touched by the loop and keep their previous value. -/
def Orbitals.make_lbound (cfg : Config) (o : Orbitals) : Orbitals :=
  { o with
    lbound := fun s l n =>
      if l < cfg.lmax then
        (if o.eigvals s l n < 0 then 2 * (l : ℚ) + 1 else 0)
      else o.lbound s l n }

/-- Orbitals.calc_occnums: starts from `np.zeros_like(eigvals)` and, for each
spin `i < spindims` with `nele[i] != 0`, sets
`occnums[i] = lbound[i] * fermi_dirac(eigvals[i], mu[i], beta)` (elementwise
over the whole (l, n) block).  `fermi_dirac` is mathtools.fermi_dirac, passed
as the parameter `fd`. -/
def Orbitals.calc_occnums (cfg : Config) (fd : ℚ → ℚ → ℚ → ℚ) (o : Orbitals)
    (mu : ℕ → ℚ) : ℕ → ℕ → ℕ → ℚ :=
  fun s l n =>
    if s < cfg.spindims ∧ cfg.nele s ≠ 0 then
      o.lbound s l n * fd (o.eigvals s l n) (mu s) cfg.beta
    else 0

/-- Orbitals.occupy: `config.mu = mathtools.chem_pot(self)` then
`self.occnums = self.calc_occnums(config.mu)`, returning True.  The result is
(updated orbitals, new config.mu, returned boolean). -/
def Orbitals.occupy (cfg : Config) (fd : ℚ → ℚ → ℚ → ℚ)
    (chem_pot : Orbitals → ℕ → ℚ) (o : Orbitals) :
    Orbitals × (ℕ → ℚ) × Bool :=
  let mu := chem_pot o
  ({ o with occnums := Orbitals.calc_occnums cfg fd o mu }, mu, true)

/-- The potential built inside Orbitals.SCF_init: `v_en` starts as
`np.zeros((spindims, ngrid))` and the loop sets row i (for i < spindims) to
`-atom.at_chrg * np.exp(-xgrid)`.  `exp` is numpy exp, passed as a parameter. -/
def v_en (cfg : Config) (exp : ℚ → ℚ) (at_chrg : ℚ) : ℕ → ℕ → ℚ :=
  fun s i => if s < cfg.spindims then -at_chrg * exp (-(cfg.xgrid i)) else 0

/-- Orbitals.SCF_init: builds the bare coulomb potential, calls
`numerov.matrix_solve(self, v_en, xgrid)` (the external Eigensolver, passed as
`matrix_solve`) to overwrite eigfuncs and eigvals, recomputes lbound, and sets
`config.mu = np.zeros(spindims)`.  Returns (updated orbitals, new config.mu). -/
def Orbitals.SCF_init (cfg : Config) (exp : ℚ → ℚ)
    (matrix_solve :
      Orbitals → (ℕ → ℕ → ℚ) → (ℕ → ℚ) →
        ((ℕ → ℕ → ℕ → ℕ → ℚ) × (ℕ → ℕ → ℕ → ℚ)))
    (o : Orbitals) (at_chrg : ℚ) : Orbitals × (ℕ → ℚ) :=
  let v := v_en cfg exp at_chrg
  let sol := matrix_solve o v cfg.xgrid
  let o1 : Orbitals := { o with eigfuncs := sol.1, eigvals := sol.2 }
  (Orbitals.make_lbound cfg o1, fun _ => 0)

/-- The Density object of staticKS.py: bound and unbound densities indexed by
(spin, grid point) and bound/unbound electron counts indexed by spin. -/
structure Density where
  rho_bound : ℕ → ℕ → ℚ
  rho_unbound : ℕ → ℕ → ℚ
  N_bound : ℕ → ℚ
  N_unbound : ℕ → ℚ

/-- Density.__init__: every attribute starts as an all-zero array. -/
def Density.init : Density :=
  { rho_bound := fun _ _ => 0
    rho_unbound := fun _ _ => 0
    N_bound := fun _ => 0
    N_unbound := fun _ => 0 }

/-- numpy einsum with subscripts "ijk,ijkl->il": contracts indices j (running
over lmax) and k (running over nmax): result[i, l] = Σ_j Σ_k A[i,j,k] * B[i,j,k,l]. -/
def einsum_ijk_ijkl_il (lmax nmax : ℕ) (A : ℕ → ℕ → ℕ → ℚ)
    (B : ℕ → ℕ → ℕ → ℕ → ℚ) : ℕ → ℕ → ℚ :=
  fun i l => ∑ j ∈ Finset.range lmax, ∑ k ∈ Finset.range nmax, A i j k * B i j k l

/-- Density.construct_rho_bound: `orbs_R = np.exp(-xgrid/2.0) * orbs.eigfuncs`,
`orbs_R_sq = orbs_R ** 2.0`, `rho_bound = np.einsum("ijk,ijkl->il",
orbs.occnums, orbs_R_sq)`, `N_bound = np.sum(orbs.occnums, axis=(1, 2))`.
The rho_unbound and N_unbound attributes are untouched. -/
def Density.construct_rho_bound (cfg : Config) (exp : ℚ → ℚ) (d : Density)
    (orbs : Orbitals) : Density :=
  let orbs_R : ℕ → ℕ → ℕ → ℕ → ℚ :=
    fun s l n i => exp ((-(cfg.xgrid i)) / 2) * orbs.eigfuncs s l n i
  let orbs_R_sq : ℕ → ℕ → ℕ → ℕ → ℚ :=
    fun s l n i => orbs_R s l n i ^ (2 : ℕ)
  { d with
    rho_bound := einsum_ijk_ijkl_il cfg.lmax cfg.nmax orbs.occnums orbs_R_sq
    N_bound := fun s =>
      ∑ l ∈ Finset.range cfg.lmax, ∑ n ∈ Finset.range cfg.nmax, orbs.occnums s l n }

/-- Density.construct_rho_unbound: only when `config.unbound == "ideal"` does
anything happen; then for each spin i < spindims,
`prefac = nele[i] / (sqrt(2) * pi**2)` (the constant `sqrt(2)*pi**2` is the
parameter `sqrt2pi2`), `n_ub = prefac * mathtools.fd_int_complete(mu[i], beta,
0.5)` (`fd_int_complete` is the parameter `fdint`), the row `rho_unbound[i]` is
set to the constant `n_ub` and `N_unbound[i] = n_ub * sph_vol`.  For any other
value of `config.unbound` the method does nothing at all: no branch exists, no
error is raised, and the object is returned unchanged. -/
def Density.construct_rho_unbound (cfg : Config) (fdint : ℚ → ℚ → ℚ → ℚ)
    (mu : ℕ → ℚ) (sqrt2pi2 : ℚ) (d : Density) (_orbs : Orbitals) : Density :=
  if cfg.unbound = "ideal" then
    let n_ub : ℕ → ℚ :=
      fun s => cfg.nele s / sqrt2pi2 * fdint (mu s) cfg.beta (1 / 2)
    { d with
      rho_unbound := fun s i =>
        if s < cfg.spindims then n_ub s else d.rho_unbound s i
      N_unbound := fun s =>
        if s < cfg.spindims then n_ub s * cfg.sph_vol else d.N_unbound s }
  else d

/-- Density.construct: `self.construct_rho_bound(orbs)` then
`self.construct_rho_unbound(orbs)`.  Neither step assigns to any attribute of
`orbs`, so the orbitals come back exactly as they went in; the pair returned
is (post-state of the density, post-state of the orbitals). -/
def Density.construct (cfg : Config) (exp : ℚ → ℚ) (fdint : ℚ → ℚ → ℚ → ℚ)
    (mu : ℕ → ℚ) (sqrt2pi2 : ℚ) (d : Density) (orbs : Orbitals) :
    Density × Orbitals :=
  let d1 := Density.construct_rho_bound cfg exp d orbs
  let d2 := Density.construct_rho_unbound cfg fdint mu sqrt2pi2 d1 orbs
  (d2, orbs)

/-- Modelled from the spec: mathtools.fermi_dirac is not part of this excerpt;
the spec defines FermiDirac(ε, μ, β) = 1 / (exp(β(ε−μ)) + 1), with `exp`
the external exponential primitive passed as a parameter. -/
def fermi_dirac_spec (exp : ℚ → ℚ) (eps mu beta : ℚ) : ℚ :=
  1 / (exp (beta * (eps - mu)) + 1)

/-! Concrete data used by the witness and counterexample theorems. -/

/-- A concrete configuration: one spin channel (with two electrons), lmax = 2,
nmax = 2, a two-point grid, and the supported "ideal" unbound treatment. -/
def cfg1 : Config :=
  { spindims := 1
    lmax := 2
    nmax := 2
    ngrid := 2
    xgrid := fun i => (i : ℚ)
    nele := fun s => if s = 0 then 2 else 0
    beta := 1
    unbound := "ideal"
    sph_vol := 3 }

/-- The same configuration with an unsupported unbound treatment selected. -/
def cfg2 : Config :=
  { cfg1 with unbound := "quantum" }

/-- A concrete orbitals value with a mix of negative and non-negative
eigenvalues. -/
def orbs1 : Orbitals :=
  { eigfuncs := fun _ _ _ i => (i : ℚ) + 1
    eigvals := fun _ l n => (l : ℚ) + (n : ℚ) - 1
    occnums := fun _ _ _ => 1
    lbound := fun _ l _ => 2 * (l : ℚ) + 1 }

/-- A concrete density value with every entry equal to 5, used to observe which
attributes a call overwrites. -/
def dens5 : Density :=
  { rho_bound := fun _ _ => 5
    rho_unbound := fun _ _ => 5
    N_bound := fun _ => 5
    N_unbound := fun _ => 5 }

/-- A concrete stand-in for the external Eigensolver numerov.matrix_solve:
returns constant eigenfunctions and the eigenvalue −1 for every state. -/
def solve1 : Orbitals → (ℕ → ℕ → ℚ) → (ℕ → ℚ) →
    ((ℕ → ℕ → ℕ → ℕ → ℚ) × (ℕ → ℕ → ℕ → ℚ)) :=
  fun _ _ _ => (fun _ _ _ _ => 1, fun _ _ _ => -1)

/-! Claim theorems. -/

/-- C5: after make_lbound, for every spin channel s, angular momentum l < lmax
and principal index n, lbound[s,l,n] equals 2l+1 if eigvals[s,l,n] is strictly
negative and 0 if eigvals[s,l,n] is greater than or equal to zero. -/
theorem make_lbound_bound_mask (cfg : Config) (o : Orbitals) (s l n : ℕ)
    (hl : l < cfg.lmax) :
    (o.eigvals s l n < 0 →
      (Orbitals.make_lbound cfg o).lbound s l n = 2 * (l : ℚ) + 1)
    ∧ (0 ≤ o.eigvals s l n →
      (Orbitals.make_lbound cfg o).lbound s l n = 0) := by
  constructor <;> intro h
  · simp [Orbitals.make_lbound, hl, h]
  · simp [Orbitals.make_lbound, hl, not_lt.mpr h]

/-- Witness for C5, at cfg1 and orbs1, state (s,l,n) = (0,0,0) with eigenvalue −1. -/
theorem make_lbound_bound_mask_witness :
    (orbs1.eigvals 0 0 0 < 0 →
      (Orbitals.make_lbound cfg1 orbs1).lbound 0 0 0 = 2 * ((0 : ℕ) : ℚ) + 1)
    ∧ (0 ≤ orbs1.eigvals 0 0 0 →
      (Orbitals.make_lbound cfg1 orbs1).lbound 0 0 0 = 0) :=
  make_lbound_bound_mask cfg1 orbs1 0 0 0 (by decide)

/-- C3: after occupy (which runs calc_occnums at the freshly computed chemical
potential), for every spin channel s < spindims with nonzero target electron
count, occnums[s,l,n] = lbound[s,l,n] × FermiDirac(eigvals[s,l,n], mu[s], beta)
where mu is the chemical potential occupy just stored; and for every spin
channel with zero target electron count, occnums[s,l,n] = 0 for all (l,n)
regardless of the eigenvalues. -/
theorem occupy_occnums_fermi_dirac (cfg : Config) (exp : ℚ → ℚ)
    (chem_pot : Orbitals → ℕ → ℚ) (o : Orbitals) (s l n : ℕ)
    (hs : s < cfg.spindims) :
    (cfg.nele s ≠ 0 →
      (Orbitals.occupy cfg (fermi_dirac_spec exp) chem_pot o).1.occnums s l n
        = o.lbound s l n *
          fermi_dirac_spec exp (o.eigvals s l n)
            ((Orbitals.occupy cfg (fermi_dirac_spec exp) chem_pot o).2.1 s)
            cfg.beta)
    ∧ (cfg.nele s = 0 →
      (Orbitals.occupy cfg (fermi_dirac_spec exp) chem_pot o).1.occnums s l n
        = 0) := by
  constructor <;> intro h <;>
    simp [Orbitals.occupy, Orbitals.calc_occnums, hs, h]

/-- Witness for C3, at cfg1 (one spin channel holding two electrons), a
constant chemical-potential solver, and orbs1. -/
theorem occupy_occnums_fermi_dirac_witness :
    (cfg1.nele 0 ≠ 0 →
      (Orbitals.occupy cfg1 (fermi_dirac_spec (fun x => x)) (fun _ _ => 1)
          orbs1).1.occnums 0 0 0
        = orbs1.lbound 0 0 0 *
          fermi_dirac_spec (fun x => x) (orbs1.eigvals 0 0 0)
            ((Orbitals.occupy cfg1 (fermi_dirac_spec (fun x => x)) (fun _ _ => 1)
                orbs1).2.1 0)
            cfg1.beta)
    ∧ (cfg1.nele 0 = 0 →
      (Orbitals.occupy cfg1 (fermi_dirac_spec (fun x => x)) (fun _ _ => 1)
          orbs1).1.occnums 0 0 0 = 0) :=
  occupy_occnums_fermi_dirac cfg1 (fun x => x) (fun _ _ => 1) orbs1 0 0 0
    (by decide)

/-- C4: after construct_rho_bound, for every spin s and grid point i,
rho_bound[s,i] = Σ_{l<lmax} Σ_{n<nmax} occnums[s,l,n] ×
(exp(−x_i/2) × eigfuncs[s,l,n,i])², and N_bound[s] =
Σ_{l<lmax} Σ_{n<nmax} occnums[s,l,n], a grid-independent quantity. -/
theorem construct_rho_bound_formula (cfg : Config) (exp : ℚ → ℚ) (d : Density)
    (orbs : Orbitals) (s i : ℕ) :
    ((Density.construct_rho_bound cfg exp d orbs).rho_bound s i
      = ∑ l ∈ Finset.range cfg.lmax, ∑ n ∈ Finset.range cfg.nmax,
          orbs.occnums s l n *
            (exp ((-(cfg.xgrid i)) / 2) * orbs.eigfuncs s l n i) ^ (2 : ℕ))
    ∧ ((Density.construct_rho_bound cfg exp d orbs).N_bound s
      = ∑ l ∈ Finset.range cfg.lmax, ∑ n ∈ Finset.range cfg.nmax,
          orbs.occnums s l n) :=
  ⟨rfl, rfl⟩

/-- C6: under the "ideal" unbound treatment, after construct_rho_unbound, for
every spin channel s < spindims and every grid point i, rho_unbound[s,i] equals
the i-independent constant (nele[s] / (√2·π²)) × fd_int_complete(mu[s], beta,
1/2), N_unbound[s] equals that constant times the cavity volume, and for a spin
channel with zero target electron count both quantities are zero.  The constant
√2·π² and the complete Fermi-Dirac integral are the external parameters
sqrt2pi2 and fdint. -/
theorem construct_rho_unbound_ideal (cfg : Config) (fdint : ℚ → ℚ → ℚ → ℚ)
    (mu : ℕ → ℚ) (sqrt2pi2 : ℚ) (d : Density) (orbs : Orbitals) (s i : ℕ)
    (hid : cfg.unbound = "ideal") (hs : s < cfg.spindims) :
    ((Density.construct_rho_unbound cfg fdint mu sqrt2pi2 d orbs).rho_unbound s i
      = cfg.nele s / sqrt2pi2 * fdint (mu s) cfg.beta (1 / 2))
    ∧ ((Density.construct_rho_unbound cfg fdint mu sqrt2pi2 d orbs).N_unbound s
      = cfg.nele s / sqrt2pi2 * fdint (mu s) cfg.beta (1 / 2) * cfg.sph_vol)
    ∧ (cfg.nele s = 0 →
      (Density.construct_rho_unbound cfg fdint mu sqrt2pi2 d orbs).rho_unbound s i
        = 0
      ∧ (Density.construct_rho_unbound cfg fdint mu sqrt2pi2 d orbs).N_unbound s
        = 0) := by
  refine ⟨?_, ?_, fun h => ⟨?_, ?_⟩⟩ <;>
    simp [Density.construct_rho_unbound, hid, hs] <;> simp [h]

/-- Witness for C6, at cfg1, a constant Fermi-Dirac integral stand-in, zero
chemical potential, sqrt2pi2 = 14, the all-5 density and orbs1. -/
theorem construct_rho_unbound_ideal_witness :
    ((Density.construct_rho_unbound cfg1 (fun _ _ _ => 5) (fun _ => 0) 14 dens5
        orbs1).rho_unbound 0 0
      = cfg1.nele 0 / 14 * (fun _ _ _ => (5 : ℚ)) ((fun _ => (0 : ℚ)) 0) cfg1.beta (1 / 2))
    ∧ ((Density.construct_rho_unbound cfg1 (fun _ _ _ => 5) (fun _ => 0) 14 dens5
        orbs1).N_unbound 0
      = cfg1.nele 0 / 14 * (fun _ _ _ => (5 : ℚ)) ((fun _ => (0 : ℚ)) 0) cfg1.beta (1 / 2)
          * cfg1.sph_vol)
    ∧ (cfg1.nele 0 = 0 →
      (Density.construct_rho_unbound cfg1 (fun _ _ _ => 5) (fun _ => 0) 14 dens5
          orbs1).rho_unbound 0 0 = 0
      ∧ (Density.construct_rho_unbound cfg1 (fun _ _ _ => 5) (fun _ => 0) 14 dens5
          orbs1).N_unbound 0 = 0) :=
  construct_rho_unbound_ideal cfg1 (fun _ _ _ => 5) (fun _ => 0) 14 dens5 orbs1
    0 0 (by decide) (by decide)

/-- C7: SCF_init builds the potential V[s,i] = −Z·exp(−x_i) identically for
every spin channel s < spindims, sets eigfuncs and eigvals to exactly the two
outputs of the Eigensolver called with that potential and the grid, recomputes
the boundedness mask from the new eigenvalues, and returns the per-spin
chemical potential reset to the zero vector. -/
theorem SCF_init_contract (cfg : Config) (exp : ℚ → ℚ)
    (matrix_solve :
      Orbitals → (ℕ → ℕ → ℚ) → (ℕ → ℚ) →
        ((ℕ → ℕ → ℕ → ℕ → ℚ) × (ℕ → ℕ → ℕ → ℚ)))
    (o : Orbitals) (at_chrg : ℚ) (s l n i : ℕ)
    (hs : s < cfg.spindims) (hl : l < cfg.lmax) :
    (v_en cfg exp at_chrg s i = -at_chrg * exp (-(cfg.xgrid i)))
    ∧ ((Orbitals.SCF_init cfg exp matrix_solve o at_chrg).1.eigfuncs
        = (matrix_solve o (v_en cfg exp at_chrg) cfg.xgrid).1)
    ∧ ((Orbitals.SCF_init cfg exp matrix_solve o at_chrg).1.eigvals
        = (matrix_solve o (v_en cfg exp at_chrg) cfg.xgrid).2)
    ∧ ((Orbitals.SCF_init cfg exp matrix_solve o at_chrg).1.lbound s l n
        = if (matrix_solve o (v_en cfg exp at_chrg) cfg.xgrid).2 s l n < 0
          then 2 * (l : ℚ) + 1 else 0)
    ∧ ((Orbitals.SCF_init cfg exp matrix_solve o at_chrg).2 = fun _ => 0) := by
  refine ⟨by simp [v_en, hs], rfl, rfl, ?_, rfl⟩
  simp [Orbitals.SCF_init, Orbitals.make_lbound, hl]

/-- Witness for C7, at cfg1, a shifted-identity exponential stand-in, the
constant Eigensolver stand-in solve1, the fresh orbitals and Z = 1. -/
theorem SCF_init_contract_witness :
    (v_en cfg1 (fun x => x + 1) 1 0 0 = -1 * (fun x : ℚ => x + 1) (-(cfg1.xgrid 0)))
    ∧ ((Orbitals.SCF_init cfg1 (fun x => x + 1) solve1 Orbitals.init 1).1.eigfuncs
        = (solve1 Orbitals.init (v_en cfg1 (fun x => x + 1) 1) cfg1.xgrid).1)
    ∧ ((Orbitals.SCF_init cfg1 (fun x => x + 1) solve1 Orbitals.init 1).1.eigvals
        = (solve1 Orbitals.init (v_en cfg1 (fun x => x + 1) 1) cfg1.xgrid).2)
    ∧ ((Orbitals.SCF_init cfg1 (fun x => x + 1) solve1 Orbitals.init 1).1.lbound 0 0 0
        = if (solve1 Orbitals.init (v_en cfg1 (fun x => x + 1) 1) cfg1.xgrid).2 0 0 0 < 0
          then 2 * ((0 : ℕ) : ℚ) + 1 else 0)
    ∧ ((Orbitals.SCF_init cfg1 (fun x => x + 1) solve1 Orbitals.init 1).2 = fun _ => 0) :=
  SCF_init_contract cfg1 (fun x => x + 1) solve1 Orbitals.init 1 0 0 0 0
    (by decide) (by decide)

/-- C8: calling construct twice in succession with the same configuration,
chemical potential and orbitals yields bit-identical rho_bound, rho_unbound,
N_bound and N_unbound after the second call as after the first. -/
theorem construct_idempotent (cfg : Config) (exp : ℚ → ℚ)
    (fdint : ℚ → ℚ → ℚ → ℚ) (mu : ℕ → ℚ) (sqrt2pi2 : ℚ) (d : Density)
    (orbs : Orbitals) (s i : ℕ) :
    ((Density.construct cfg exp fdint mu sqrt2pi2
        (Density.construct cfg exp fdint mu sqrt2pi2 d orbs).1 orbs).1.rho_bound s i
      = (Density.construct cfg exp fdint mu sqrt2pi2 d orbs).1.rho_bound s i)
    ∧ ((Density.construct cfg exp fdint mu sqrt2pi2
        (Density.construct cfg exp fdint mu sqrt2pi2 d orbs).1 orbs).1.rho_unbound s i
      = (Density.construct cfg exp fdint mu sqrt2pi2 d orbs).1.rho_unbound s i)
    ∧ ((Density.construct cfg exp fdint mu sqrt2pi2
        (Density.construct cfg exp fdint mu sqrt2pi2 d orbs).1 orbs).1.N_bound s
      = (Density.construct cfg exp fdint mu sqrt2pi2 d orbs).1.N_bound s)
    ∧ ((Density.construct cfg exp fdint mu sqrt2pi2
        (Density.construct cfg exp fdint mu sqrt2pi2 d orbs).1 orbs).1.N_unbound s
      = (Density.construct cfg exp fdint mu sqrt2pi2 d orbs).1.N_unbound s) := by
  by_cases h : cfg.unbound = "ideal"
  · simp [Density.construct, Density.construct_rho_unbound,
      Density.construct_rho_bound, h]
    exact ⟨fun hs => by simp [hs], fun hs => by simp [hs]⟩
  · simp [Density.construct, Density.construct_rho_unbound,
      Density.construct_rho_bound, h]

/-- C9: construct never mutates its orbitals argument: eigfuncs, eigvals,
occnums and lbound of the returned orbitals are exactly those passed in. -/
theorem construct_preserves_orbitals (cfg : Config) (exp : ℚ → ℚ)
    (fdint : ℚ → ℚ → ℚ → ℚ) (mu : ℕ → ℚ) (sqrt2pi2 : ℚ) (d : Density)
    (orbs : Orbitals) :
    ((Density.construct cfg exp fdint mu sqrt2pi2 d orbs).2.eigfuncs
      = orbs.eigfuncs)
    ∧ ((Density.construct cfg exp fdint mu sqrt2pi2 d orbs).2.eigvals
      = orbs.eigvals)
    ∧ ((Density.construct cfg exp fdint mu sqrt2pi2 d orbs).2.occnums
      = orbs.occnums)
    ∧ ((Density.construct cfg exp fdint mu sqrt2pi2 d orbs).2.lbound
      = orbs.lbound) :=
  ⟨rfl, rfl, rfl, rfl⟩

/-- C10: for any unbound treatment other than "ideal", construct completes (it
is a total function with no error outcome), rho_unbound and N_unbound retain
exactly the values they held before the call, and only rho_bound and N_bound
are recomputed (to the usual contraction and occupation sums). -/
theorem construct_nonideal_frame (cfg : Config) (exp : ℚ → ℚ)
    (fdint : ℚ → ℚ → ℚ → ℚ) (mu : ℕ → ℚ) (sqrt2pi2 : ℚ) (d : Density)
    (orbs : Orbitals) (s i : ℕ) (h : cfg.unbound ≠ "ideal") :
    ((Density.construct cfg exp fdint mu sqrt2pi2 d orbs).1.rho_unbound s i
      = d.rho_unbound s i)
    ∧ ((Density.construct cfg exp fdint mu sqrt2pi2 d orbs).1.N_unbound s
      = d.N_unbound s)
    ∧ ((Density.construct cfg exp fdint mu sqrt2pi2 d orbs).1.rho_bound s i
      = ∑ l ∈ Finset.range cfg.lmax, ∑ n ∈ Finset.range cfg.nmax,
          orbs.occnums s l n *
            (exp ((-(cfg.xgrid i)) / 2) * orbs.eigfuncs s l n i) ^ (2 : ℕ))
    ∧ ((Density.construct cfg exp fdint mu sqrt2pi2 d orbs).1.N_bound s
      = ∑ l ∈ Finset.range cfg.lmax, ∑ n ∈ Finset.range cfg.nmax,
          orbs.occnums s l n) := by
  refine ⟨?_, ?_, ?_, ?_⟩ <;>
    simp [Density.construct, Density.construct_rho_unbound,
      Density.construct_rho_bound, einsum_ijk_ijkl_il, h]

/-- Witness for C10, at cfg2 (unbound treatment "quantum"), the zero density
and orbs1. -/
theorem construct_nonideal_frame_witness :
    ((Density.construct cfg2 (fun x => x) (fun _ _ _ => 5) (fun _ => 0) 14
        Density.init orbs1).1.rho_unbound 0 0 = Density.init.rho_unbound 0 0)
    ∧ ((Density.construct cfg2 (fun x => x) (fun _ _ _ => 5) (fun _ => 0) 14
        Density.init orbs1).1.N_unbound 0 = Density.init.N_unbound 0)
    ∧ ((Density.construct cfg2 (fun x => x) (fun _ _ _ => 5) (fun _ => 0) 14
        Density.init orbs1).1.rho_bound 0 0
      = ∑ l ∈ Finset.range cfg2.lmax, ∑ n ∈ Finset.range cfg2.nmax,
          orbs1.occnums 0 l n *
            ((fun x : ℚ => x) ((-(cfg2.xgrid 0)) / 2) * orbs1.eigfuncs 0 l n 0)
              ^ (2 : ℕ))
    ∧ ((Density.construct cfg2 (fun x => x) (fun _ _ _ => 5) (fun _ => 0) 14
        Density.init orbs1).1.N_bound 0
      = ∑ l ∈ Finset.range cfg2.lmax, ∑ n ∈ Finset.range cfg2.nmax,
          orbs1.occnums 0 l n) :=
  construct_nonideal_frame cfg2 (fun x => x) (fun _ _ _ => 5) (fun _ => 0) 14
    Density.init orbs1 0 0 (by decide)

/-- C1 counterexample: with the unsupported unbound treatment "quantum"
selected (cfg2), construct does not raise any error — it is a total function
with no error outcome — and it does not leave the Density arrays unmodified:
starting from the all-5 density and the fresh all-zero orbitals, rho_bound[0,0]
is recomputed to 0, so it differs from its value before the call. -/
theorem construct_unsupported_modifies_density :
    (Density.construct cfg2 (fun x => x) (fun _ _ _ => 0) (fun _ => 0) 14 dens5
        Orbitals.init).1.rho_bound 0 0
      ≠ dens5.rho_bound 0 0 := by
  have h : ("quantum" : String) ≠ "ideal" := by decide
  norm_num [Density.construct, Density.construct_rho_unbound,
    Density.construct_rho_bound, einsum_ijk_ijkl_il, cfg2, cfg1, dens5,
    Orbitals.init, h]

/-- C1 amended: if the configured unbound treatment is any value other than
"ideal", construct raises no error (every path is total); it recomputes
rho_bound and N_bound from the orbitals exactly as in the supported case and
leaves rho_unbound and N_unbound unmodified. -/
theorem construct_unsupported_silently_skips (cfg : Config) (exp : ℚ → ℚ)
    (fdint : ℚ → ℚ → ℚ → ℚ) (mu : ℕ → ℚ) (sqrt2pi2 : ℚ) (d : Density)
    (orbs : Orbitals) (s i : ℕ) (h : cfg.unbound ≠ "ideal") :
    ((Density.construct cfg exp fdint mu sqrt2pi2 d orbs).1.rho_bound s i
      = ∑ l ∈ Finset.range cfg.lmax, ∑ n ∈ Finset.range cfg.nmax,
          orbs.occnums s l n *
            (exp ((-(cfg.xgrid i)) / 2) * orbs.eigfuncs s l n i) ^ (2 : ℕ))
    ∧ ((Density.construct cfg exp fdint mu sqrt2pi2 d orbs).1.N_bound s
      = ∑ l ∈ Finset.range cfg.lmax, ∑ n ∈ Finset.range cfg.nmax,
          orbs.occnums s l n)
    ∧ ((Density.construct cfg exp fdint mu sqrt2pi2 d orbs).1.rho_unbound s i
      = d.rho_unbound s i)
    ∧ ((Density.construct cfg exp fdint mu sqrt2pi2 d orbs).1.N_unbound s
      = d.N_unbound s) := by
  refine ⟨?_, ?_, ?_, ?_⟩ <;>
    simp [Density.construct, Density.construct_rho_unbound,
      Density.construct_rho_bound, einsum_ijk_ijkl_il, h]

/-- Witness for the amended C1, at cfg2 (unbound treatment "quantum"), the
all-5 density and the fresh orbitals. -/
theorem construct_unsupported_silently_skips_witness :
    ((Density.construct cfg2 (fun x => x) (fun _ _ _ => 0) (fun _ => 0) 14
        dens5 Orbitals.init).1.rho_bound 0 0
      = ∑ l ∈ Finset.range cfg2.lmax, ∑ n ∈ Finset.range cfg2.nmax,
          Orbitals.init.occnums 0 l n *
            ((fun x : ℚ => x) ((-(cfg2.xgrid 0)) / 2)
                * Orbitals.init.eigfuncs 0 l n 0) ^ (2 : ℕ))
    ∧ ((Density.construct cfg2 (fun x => x) (fun _ _ _ => 0) (fun _ => 0) 14
        dens5 Orbitals.init).1.N_bound 0
      = ∑ l ∈ Finset.range cfg2.lmax, ∑ n ∈ Finset.range cfg2.nmax,
          Orbitals.init.occnums 0 l n)
    ∧ ((Density.construct cfg2 (fun x => x) (fun _ _ _ => 0) (fun _ => 0) 14
        dens5 Orbitals.init).1.rho_unbound 0 0 = dens5.rho_unbound 0 0)
    ∧ ((Density.construct cfg2 (fun x => x) (fun _ _ _ => 0) (fun _ => 0) 14
        dens5 Orbitals.init).1.N_unbound 0 = dens5.N_unbound 0) :=
  construct_unsupported_silently_skips cfg2 (fun x => x) (fun _ _ _ => 0)
    (fun _ => 0) 14 dens5 Orbitals.init 0 0 (by decide)

/-- C2 counterexample: on the freshly initialized state, where no eigenvalues
or occupation numbers have been produced yet, neither operation fails loudly:
occupy returns True with all-zero occupation numbers, and construct silently
proceeds and returns an identically zero bound density and bound count. -/
theorem uninitialized_calls_return_normally :
    ((Orbitals.occupy cfg1 (fun _ _ _ => 1) (fun _ _ => 1)
        Orbitals.init).2.2 = true)
    ∧ ((Orbitals.occupy cfg1 (fun _ _ _ => 1) (fun _ _ => 1)
        Orbitals.init).1.occnums 0 0 0 = 0)
    ∧ ((Density.construct cfg1 (fun x => x) (fun _ _ _ => 1) (fun _ => 0) 14
        Density.init Orbitals.init).1.rho_bound 0 0 = 0)
    ∧ ((Density.construct cfg1 (fun x => x) (fun _ _ _ => 1) (fun _ => 0) 14
        Density.init Orbitals.init).1.N_bound 0 = 0) := by
  refine ⟨rfl, ?_, ?_, ?_⟩
  · simp [Orbitals.occupy, Orbitals.calc_occnums, Orbitals.init]
  · simp [Density.construct, Density.construct_rho_unbound,
      Density.construct_rho_bound, einsum_ijk_ijkl_il, Orbitals.init, cfg1]
  · simp [Density.construct, Density.construct_rho_unbound,
      Density.construct_rho_bound, Orbitals.init, cfg1]

/-- C2 amended: neither occupy nor construct checks its prerequisite state.
Called on the freshly initialized objects (before any eigenvalues or occupation
numbers exist), occupy silently proceeds, returning True and all-zero
occupation numbers, and construct silently proceeds, producing an identically
zero bound density and bound electron count; no failure occurs. -/
theorem uninitialized_calls_silently_proceed (cfg : Config) (exp : ℚ → ℚ)
    (fd fdint : ℚ → ℚ → ℚ → ℚ) (chem_pot : Orbitals → ℕ → ℚ) (mu : ℕ → ℚ)
    (sqrt2pi2 : ℚ) (s l n i : ℕ) :
    ((Orbitals.occupy cfg fd chem_pot Orbitals.init).2.2 = true)
    ∧ ((Orbitals.occupy cfg fd chem_pot Orbitals.init).1.occnums s l n = 0)
    ∧ ((Density.construct cfg exp fdint mu sqrt2pi2 Density.init
        Orbitals.init).1.rho_bound s i = 0)
    ∧ ((Density.construct cfg exp fdint mu sqrt2pi2 Density.init
        Orbitals.init).1.N_bound s = 0) := by
  refine ⟨rfl, ?_, ?_, ?_⟩
  · simp [Orbitals.occupy, Orbitals.calc_occnums, Orbitals.init]
  · by_cases h : cfg.unbound = "ideal" <;>
      simp [Density.construct, Density.construct_rho_unbound,
        Density.construct_rho_bound, einsum_ijk_ijkl_il, Orbitals.init, h]
  · by_cases h : cfg.unbound = "ideal" <;>
      simp [Density.construct, Density.construct_rho_unbound,
        Density.construct_rho_bound, Orbitals.init, h]
